import Mathlib

/-!
Shallow embedding of `lib/ansible/modules/packaging/os/conda.py`:
the `Conda` class (command construction, change detection, environment
probing, install/update/create/remove) and the `run_module` dispatch.

The external process runner (`module.run_command`) is modelled as an
oracle `List String → CmdOutput`; the JSON parse of captured stdout
(`json.loads`) is modelled by the oracle's `stdout_json : Option Json`
field (`none` = stdout is not valid JSON).  Calls to
`module.fail_json` (which abort the whole module) are modelled as
`Except.error` values; the sequence of external commands actually
executed is tracked in a `Traced` wrapper.
-/

/-- JSON values, as produced by `json.loads`. -/
inductive Json : Type where
  | null : Json
  | bool (b : Bool) : Json
  | num (n : Int) : Json
  | str (s : String) : Json
  | arr (elems : List Json) : Json
  | obj (kvs : List (String × Json)) : Json

/-- Whether `n` occurs as a contiguous sublist of the second list. -/
def pyCharsIn (n : List Char) : List Char → Bool
  | [] => n.isEmpty
  | c :: t => n.isPrefixOf (c :: t) || pyCharsIn n t

/-- Python substring test `needle in haystack` on strings. -/
def pyStrIn (needle haystack : String) : Bool :=
  pyCharsIn needle.data haystack.data

/-- Whether a `Json` element equals the given string (Python `==` against a
string never matches a non-string JSON value). -/
def Json.eqStr (j : Json) (s : String) : Bool :=
  match j with
  | .str t => t == s
  | _ => false

/-- Python `key in j` for a parsed JSON value: key membership for an object,
element membership for an array, substring for a string; `none` models the
`TypeError` Python raises on the remaining scalar types. -/
def Json.hasMember (j : Json) (key : String) : Option Bool :=
  match j with
  | .obj kvs => some (kvs.any (fun p => p.1 == key))
  | .arr elems => some (elems.any (fun e => e.eqStr key))
  | .str s => some (pyStrIn key s)
  | _ => none

/-- Outcome of one external command (`module.run_command`): exit code, raw
stdout and stderr, and the result of `json.loads` on stdout. -/
structure CmdOutput : Type where
  rc : Int
  stdout : String
  stdout_json : Option Json
  stderr : String

/-- The ways the module aborts (`module.fail_json`) or the Python code
crashes: a fail-fast command returned non-zero exit; stdout was not JSON;
`"actions" in stdout_json` raised `TypeError`; the output of `conda list`
was not a list of records each carrying a string `name`. -/
inductive CondaError : Type where
  | commandFailed (cmd : List String) (rc : Int) (stdout stderr : String)
  | parseFailed (cmd : List String) (stdout stderr : String)
  | typeError (cmd : List String)
  | badPackageList (cmd : List String)

/-- The value of the `cmd` field of a `Result`: a command vector for real
invocations, a plain string (always `""`) for the synthetic no-op result
built in `Conda.remove`. -/
inductive CmdValue : Type where
  | args (a : List String)
  | text (s : String)

/-- The `Result` namedtuple: `changed cmd rc stdout_json stderr`. -/
structure Result : Type where
  changed : Bool
  cmd : CmdValue
  rc : Int
  stdout_json : Json
  stderr : String

/-- A computation together with the list of external command vectors it
executed, in order. -/
structure Traced (α : Type) : Type where
  trace : List (List String)
  result : α

/-- The configuration captured by `Conda.__init__`: resolved executable
path, environment identifier, extra channels, and the module's check mode.
(Executable resolution via `get_bin_path` happens outside this model.) -/
structure CondaConfig : Type where
  executable : String
  environment : String
  channels : List String
  check_mode : Bool

namespace Conda

/-- `os.path.sep` on the POSIX systems conda targets. -/
def osPathSep : Char := '/'

/-- The environment selector pair built in `Conda.__init__`:
`--prefix` when the identifier contains a path separator, else `--name`. -/
def env_args (c : CondaConfig) : List String :=
  if c.environment.data.contains osPathSep then
    ["--prefix", c.environment]
  else
    ["--name", c.environment]

/-- The default arguments built in `Conda.__init__`: `-y`, the environment
selector, one `--channel` pair per extra channel, and `--dry-run` when the
module runs in check mode. -/
def default_args (c : CondaConfig) : List String :=
  (["-y"] ++ env_args c ++ c.channels.flatMap (fun ch => ["--channel", ch])) ++
    (if c.check_mode then ["--dry-run"] else [])

/-- `Conda.changed`: `True` iff `"actions"` is in the parsed stdout
(`none` models the `TypeError` on scalar JSON). -/
def changed (stdout_json : Json) : Option Bool :=
  stdout_json.hasMember "actions"

/-- The command vector built at the top of `Conda.run_conda`:
`[executable, subcommand, --quiet, --json]`, then the default arguments
unless suppressed, then the operation-specific arguments. -/
def build_cmd (c : CondaConfig) (sub : String) (args : List String)
    (add_default_args : Bool) : List String :=
  [c.executable, sub] ++ ["--quiet", "--json"] ++
    (if add_default_args then default_args c else []) ++ args

/-- `Conda.run_conda`: build the command, run it, fail on non-zero exit when
`fail_on_error`, fail when stdout is not JSON, and otherwise package the
classification, command, exit code, parsed output and stderr. -/
def run_conda (c : CondaConfig) (oracle : List String → CmdOutput)
    (sub : String) (args : List String) (fail_on_error add_default_args : Bool) :
    Traced (Except CondaError Result) :=
  let cmd := build_cmd c sub args add_default_args
  let out := oracle cmd
  let res : Except CondaError Result :=
    if fail_on_error && !(out.rc == 0) then
      .error (.commandFailed cmd out.rc out.stdout out.stderr)
    else
      match out.stdout_json with
      | none => .error (.parseFailed cmd out.stdout out.stderr)
      | some j =>
        match changed j with
        | none => .error (.typeError cmd)
        | some ch => .ok ⟨ch, .args cmd, out.rc, j, out.stderr⟩
  ⟨[cmd], res⟩

/-- The name of one package record of `conda list` output
(`pkg["name"]`, required to be a string for the later set intersection). -/
def pkg_record_name (j : Json) : Option String :=
  match j with
  | .obj kvs =>
    match kvs.find? (fun p => p.1 == "name") with
    | some (_, .str s) => some s
    | _ => none
  | _ => none

/-- The names extracted from `conda list` output
(`[pkg["name"] for pkg in result.stdout_json]`). -/
def package_names (j : Json) : Option (List String) :=
  match j with
  | .arr elems => elems.mapM pkg_record_name
  | _ => none

/-- `Conda.list_packages`: run `conda list` against the environment selector
only (default args suppressed, fail-fast on), and extract the installed
package names from the parsed output. -/
def list_packages (c : CondaConfig) (oracle : List String → CmdOutput) :
    Traced (Except CondaError (List String)) :=
  let r := run_conda c oracle "list" (env_args c) true false
  ⟨r.trace,
    match r.result with
    | .error e => .error e
    | .ok res =>
      match package_names res.stdout_json with
      | some names => .ok names
      | none => .error (.badPackageList (build_cmd c "list" (env_args c) false))⟩

/-- `Conda.env_exists`: run `conda list` against the environment selector
only, with fail-fast off, and report whether the exit code is zero. -/
def env_exists (c : CondaConfig) (oracle : List String → CmdOutput) :
    Traced (Except CondaError Bool) :=
  let r := run_conda c oracle "list" (env_args c) false false
  ⟨r.trace,
    match r.result with
    | .error e => .error e
    | .ok res => .ok (res.rc == 0)⟩

/-- `Conda.install`: `conda install -S <packages>` with default args. -/
def install (c : CondaConfig) (oracle : List String → CmdOutput)
    (packages : List String) : Traced (Except CondaError Result) :=
  run_conda c oracle "install" (["-S"] ++ packages) true true

/-- `Conda.update`: `conda update <packages>` with default args. -/
def update (c : CondaConfig) (oracle : List String → CmdOutput)
    (packages : List String) : Traced (Except CondaError Result) :=
  run_conda c oracle "update" packages true true

/-- `Conda.create`: `conda create <packages>` with default args. -/
def create (c : CondaConfig) (oracle : List String → CmdOutput)
    (packages : List String) : Traced (Except CondaError Result) :=
  run_conda c oracle "create" packages true true

/-- `pkg.split("=")[0].lower()`: the specifier with everything from the
first `=` on dropped, lowercased. -/
def normalize_name (pkg : String) : String :=
  String.mk ((pkg.data.takeWhile (fun ch => !(ch == '='))).map Char.toLower)

/-- `set(installed_packages) & set(packages_names)` where `packages_names`
normalizes the requested specifiers: the installed names (as reported,
unnormalized) that equal some normalized specifier, each once. -/
def packages_to_remove (installed_packages packages : List String) :
    List String :=
  let packages_names := packages.map normalize_name
  (installed_packages.filter (fun p => packages_names.contains p)).dedup

/-- `Conda.remove`: list the installed packages, intersect with the
normalized specifiers, and either run `conda remove` on the intersection or
return the synthetic unchanged result `Result(False, "", 0, {}, "")`. -/
def remove (c : CondaConfig) (oracle : List String → CmdOutput)
    (packages : List String) : Traced (Except CondaError Result) :=
  let lp := list_packages c oracle
  match lp.result with
  | .error e => ⟨lp.trace, .error e⟩
  | .ok installed_packages =>
    let to_remove := packages_to_remove installed_packages packages
    if to_remove.isEmpty then
      ⟨lp.trace, .ok ⟨false, .text "", 0, .obj [], ""⟩⟩
    else
      let r := run_conda c oracle "remove" to_remove true true
      ⟨lp.trace ++ r.trace, r.result⟩

end Conda

/-- The `state` module parameter; `argument_spec` restricts it to these
three choices. -/
inductive ModuleState : Type where
  | present : ModuleState
  | latest : ModuleState
  | absent : ModuleState

/-- `run_module`'s dispatch after construction of the `Conda` object:
`present`/`latest` probe the environment and install/update when it exists,
create it otherwise; `absent` removes unconditionally. -/
def run_module (c : CondaConfig) (oracle : List String → CmdOutput)
    (state : ModuleState) (packages : List String) :
    Traced (Except CondaError Result) :=
  match state with
  | .present =>
    let e := Conda.env_exists c oracle
    match e.result with
    | .error err => ⟨e.trace, .error err⟩
    | .ok true =>
      let r := Conda.install c oracle packages
      ⟨e.trace ++ r.trace, r.result⟩
    | .ok false =>
      let r := Conda.create c oracle packages
      ⟨e.trace ++ r.trace, r.result⟩
  | .latest =>
    let e := Conda.env_exists c oracle
    match e.result with
    | .error err => ⟨e.trace, .error err⟩
    | .ok true =>
      let r := Conda.update c oracle packages
      ⟨e.trace ++ r.trace, r.result⟩
    | .ok false =>
      let r := Conda.create c oracle packages
      ⟨e.trace ++ r.trace, r.result⟩
  | .absent => Conda.remove c oracle packages

/-- The exact command vector of the environment-existence probe and of
`list_packages`: the listing subcommand with the environment selector only
(default arguments suppressed). -/
def Conda.probe_cmd (c : CondaConfig) : List String :=
  Conda.build_cmd c "list" (Conda.env_args c) false

/-- The removal intersection as the spec words it: BOTH the installed names
and the requested specifiers normalized to bare lowercase names before
intersecting.  This definition follows the spec's sentence, not the code,
and exists only to be compared with `Conda.packages_to_remove` (which is
translated from the source). -/
def spec_normalized_intersection (installed_packages packages : List String) :
    List String :=
  ((installed_packages.map Conda.normalize_name).filter
    (fun p => (packages.map Conda.normalize_name).contains p)).dedup

/-- Concrete configuration used by witnesses: executable `/mypath/conda`,
environment `myenv`, no extra channels, check mode off. -/
def testConfig : CondaConfig := ⟨"/mypath/conda", "myenv", [], false⟩

/-- Concrete configuration used by witnesses: check mode on. -/
def checkConfig : CondaConfig := ⟨"/c", "e", [], true⟩

/-- A successful `conda list`-style output whose JSON is a list of package
records with the given names. -/
def pkgListOutput (names : List String) : CmdOutput :=
  ⟨0, "", some (.arr (names.map (fun n => Json.obj [("name", Json.str n)]))), ""⟩

/-- An oracle answering every command with `pkgListOutput names`. -/
def pkgListOracle (names : List String) : List String → CmdOutput :=
  fun _ => pkgListOutput names

/-- An oracle answering every command with exit code 127 and stdout that is
not valid JSON. -/
def noJsonOracle : List String → CmdOutput :=
  fun _ => ⟨127, "environment does not exist", none, "error"⟩

/-- An oracle answering every command with exit code 127 but well-formed
(empty-object) JSON on stdout. -/
def failedProbeOracle : List String → CmdOutput :=
  fun _ => ⟨127, "{}", some (Json.obj []), ""⟩

/-- Membership in the computed removal set: exactly the installed names (as
reported, unnormalized) that some requested specifier normalizes to. -/
lemma mem_packages_to_remove (installed_packages packages : List String)
    (x : String) :
    x ∈ Conda.packages_to_remove installed_packages packages ↔
      x ∈ installed_packages ∧
        ∃ s ∈ packages, Conda.normalize_name s = x := by
  simp [Conda.packages_to_remove, List.mem_filter]

/-- C1.  The change classifier on a JSON object returns `True` exactly when
the object has an `actions` key (whatever its value), and `False` exactly
when it lacks one. -/
theorem changed_iff_actions_key (kvs : List (String × Json)) :
    (Conda.changed (Json.obj kvs) = some true ↔ "actions" ∈ kvs.map Prod.fst) ∧
    (Conda.changed (Json.obj kvs) = some false ↔ "actions" ∉ kvs.map Prod.fst) := by
  simp [Conda.changed, Json.hasMember, List.any_eq_true, List.mem_map]
  constructor
  · intro h x hx
    exact h "actions" x hx rfl
  · intro h a b hab ha
    subst ha
    exact h b hab

/-- C5.  The environment selector pair is `--prefix` plus the identifier
when the identifier contains the path separator, `--name` plus the
identifier otherwise. -/
theorem env_args_selector (c : CondaConfig) :
    (c.environment.data.contains Conda.osPathSep = true →
      Conda.env_args c = ["--prefix", c.environment]) ∧
    (c.environment.data.contains Conda.osPathSep = false →
      Conda.env_args c = ["--name", c.environment]) := by
  constructor <;> intro h <;> simp_all [Conda.env_args]

/-- Witness for C5 at `./myenv`, `myenv` and `/opt/x`. -/
theorem env_args_selector_witness :
    Conda.env_args ⟨"/mypath/conda", "./myenv", [], false⟩ = ["--prefix", "./myenv"] ∧
    Conda.env_args ⟨"/mypath/conda", "myenv", [], false⟩ = ["--name", "myenv"] ∧
    Conda.env_args ⟨"/mypath/conda", "/opt/x", [], false⟩ = ["--prefix", "/opt/x"] :=
  ⟨(env_args_selector _).1 (by decide),
    (env_args_selector _).2 (by decide),
    (env_args_selector _).1 (by decide)⟩

/-- C7.  `install(["foo=1.0","bar"])` with environment `myenv`, executable
`/mypath/conda`, no channels, no check mode builds exactly the command
vector `/mypath/conda install --quiet --json -y --name myenv -S foo=1.0 bar`
(default args merged, strict flag, literal specifiers). -/
theorem install_cmd_vector (oracle : List String → CmdOutput) :
    (Conda.install ⟨"/mypath/conda", "myenv", [], false⟩ oracle
        ["foo=1.0", "bar"]).trace =
      [["/mypath/conda", "install", "--quiet", "--json", "-y", "--name",
        "myenv", "-S", "foo=1.0", "bar"]] := rfl

/-- C2 counterexample.  At installed `["Python"]` and requested `["python"]`
the code's intersection is empty, while the intersection obtained by
normalizing BOTH sides (as the claim states) is `["python"]`: the code does
not normalize the installed names. -/
theorem packages_to_remove_not_both_normalized :
    Conda.packages_to_remove ["Python"] ["python"] ≠
      spec_normalized_intersection ["Python"] ["python"] ∧
    Conda.packages_to_remove ["Python"] ["python"] = [] ∧
    spec_normalized_intersection ["Python"] ["python"] = ["python"] := by
  decide

/-- C2 amended.  Before the intersection only the requested specifiers are
normalized to bare lowercase names; the installed names are compared exactly
as reported: the removal set holds exactly the installed names (unchanged)
that some normalized specifier equals, each once. -/
theorem packages_to_remove_normalizes_specifiers_only
    (installed_packages packages : List String) :
    (Conda.packages_to_remove installed_packages packages).Nodup ∧
    ∀ x, x ∈ Conda.packages_to_remove installed_packages packages ↔
      x ∈ installed_packages ∧ ∃ s ∈ packages, Conda.normalize_name s = x :=
  ⟨List.nodup_dedup _, fun x => mem_packages_to_remove installed_packages packages x⟩

/-- C3.  When the normalized specifiers miss every installed name, `remove`
performs no invocation beyond the listing that produced the installed set
(the trace is exactly the listing's trace) and returns the synthetic
unchanged result: changed false, empty command, exit code 0, empty JSON
object, empty stderr. -/
theorem remove_empty_intersection_noop (c : CondaConfig)
    (oracle : List String → CmdOutput) (packages installed_packages : List String)
    (hlist : (Conda.list_packages c oracle).result = .ok installed_packages)
    (hempty : Conda.packages_to_remove installed_packages packages = []) :
    Conda.remove c oracle packages =
      ⟨(Conda.list_packages c oracle).trace,
        .ok ⟨false, .text "", 0, .obj [], ""⟩⟩ := by
  simp [Conda.remove, hlist, hempty]

/-- Witness for C3: the spec's example, `remove(["foo","Python"])` against
installed `["flask","bar"]`. -/
theorem remove_empty_intersection_noop_witness :
    Conda.remove testConfig (pkgListOracle ["flask", "bar"]) ["foo", "Python"] =
      ⟨[["/mypath/conda", "list", "--quiet", "--json", "--name", "myenv"]],
        .ok ⟨false, .text "", 0, .obj [], ""⟩⟩ :=
  remove_empty_intersection_noop testConfig (pkgListOracle ["flask", "bar"])
    ["foo", "Python"] ["flask", "bar"] rfl (by decide)

/-- C4.  Top-level dispatch: `absent` removes unconditionally (no probe);
`present` probes and installs when the environment exists, creates
otherwise; `latest` probes and updates when it exists, creates otherwise. -/
theorem run_module_dispatch (c : CondaConfig) (oracle : List String → CmdOutput)
    (packages : List String) (b : Bool)
    (hprobe : (Conda.env_exists c oracle).result = .ok b) :
    run_module c oracle .absent packages = Conda.remove c oracle packages ∧
    run_module c oracle .present packages =
      ⟨(Conda.env_exists c oracle).trace ++
          (if b then (Conda.install c oracle packages).trace
            else (Conda.create c oracle packages).trace),
        if b then (Conda.install c oracle packages).result
          else (Conda.create c oracle packages).result⟩ ∧
    run_module c oracle .latest packages =
      ⟨(Conda.env_exists c oracle).trace ++
          (if b then (Conda.update c oracle packages).trace
            else (Conda.create c oracle packages).trace),
        if b then (Conda.update c oracle packages).result
          else (Conda.create c oracle packages).result⟩ := by
  cases b <;> simp [run_module, hprobe]

/-- Witness for C4 with an oracle whose probe succeeds (environment
exists). -/
theorem run_module_dispatch_witness :
    run_module testConfig (pkgListOracle ["flask"]) .absent ["flask"] =
      Conda.remove testConfig (pkgListOracle ["flask"]) ["flask"] ∧
    run_module testConfig (pkgListOracle ["flask"]) .present ["flask"] =
      ⟨(Conda.env_exists testConfig (pkgListOracle ["flask"])).trace ++
          (Conda.install testConfig (pkgListOracle ["flask"]) ["flask"]).trace,
        (Conda.install testConfig (pkgListOracle ["flask"]) ["flask"]).result⟩ ∧
    run_module testConfig (pkgListOracle ["flask"]) .latest ["flask"] =
      ⟨(Conda.env_exists testConfig (pkgListOracle ["flask"])).trace ++
          (Conda.update testConfig (pkgListOracle ["flask"]) ["flask"]).trace,
        (Conda.update testConfig (pkgListOracle ["flask"]) ["flask"]).result⟩ :=
  run_module_dispatch testConfig (pkgListOracle ["flask"]) ["flask"] true rfl

/-- C6.  Whenever the probe's stdout parses as JSON on which the change
classifier is defined, the existence check runs exactly the listing command
with the environment selector only (no default args), converts the exit
code to a boolean instead of failing, and answers true iff the exit code is
exactly 0 — whatever the non-zero code is. -/
theorem env_exists_rc_zero (c : CondaConfig) (oracle : List String → CmdOutput)
    (j : Json) (b : Bool)
    (hjson : (oracle (Conda.probe_cmd c)).stdout_json = some j)
    (hch : Conda.changed j = some b) :
    (Conda.env_exists c oracle).trace =
      [[c.executable, "list", "--quiet", "--json"] ++ Conda.env_args c] ∧
    (Conda.env_exists c oracle).result =
      .ok ((oracle (Conda.probe_cmd c)).rc == 0) ∧
    ((Conda.env_exists c oracle).result = .ok true ↔
      (oracle (Conda.probe_cmd c)).rc = 0) := by
  simp [Conda.probe_cmd, Conda.build_cmd] at hjson
  simp [Conda.env_exists, Conda.run_conda, Conda.probe_cmd, Conda.build_cmd,
    hjson, hch]

/-- Witness for C6: a probe exiting 127 with JSON stdout yields `ok false`. -/
theorem env_exists_rc_zero_witness :
    (Conda.env_exists testConfig failedProbeOracle).trace =
      [["/mypath/conda", "list", "--quiet", "--json", "--name", "myenv"]] ∧
    (Conda.env_exists testConfig failedProbeOracle).result = .ok false ∧
    ((Conda.env_exists testConfig failedProbeOracle).result = .ok true ↔
      (127 : Int) = 0) :=
  env_exists_rc_zero testConfig failedProbeOracle (Json.obj []) false rfl rfl

/-- C10.  The shared wrapper parses stdout even with fail-fast disabled:
whenever the probe's stdout is not valid JSON, the existence check aborts
the whole module with a parse error — for every exit code, including the
tolerated non-zero ones. -/
theorem env_exists_parse_failure (c : CondaConfig)
    (oracle : List String → CmdOutput)
    (hjson : (oracle (Conda.probe_cmd c)).stdout_json = none) :
    (Conda.env_exists c oracle).result =
      .error (.parseFailed (Conda.probe_cmd c)
        (oracle (Conda.probe_cmd c)).stdout (oracle (Conda.probe_cmd c)).stderr) := by
  simp [Conda.probe_cmd, Conda.build_cmd] at hjson
  simp [Conda.env_exists, Conda.run_conda, Conda.probe_cmd, Conda.build_cmd,
    hjson]

/-- Witness for C10: non-JSON stdout with exit code 127 aborts the probe. -/
theorem env_exists_parse_failure_witness :
    (Conda.env_exists testConfig noJsonOracle).result =
      .error (.parseFailed
        ["/mypath/conda", "list", "--quiet", "--json", "--name", "myenv"]
        "environment does not exist" "error") :=
  env_exists_parse_failure testConfig noJsonOracle rfl

/-- C8.  When the normalized specifiers do hit installed names, `remove`
performs exactly one further invocation after the listing, whose positional
arguments are exactly the members of the computed intersection (installed
names, not the original specifiers) appended to the defaults-merged remove
command, and whose outcome is the operation's result. -/
theorem remove_nonempty_runs_intersection (c : CondaConfig)
    (oracle : List String → CmdOutput) (packages installed_packages : List String)
    (hlist : (Conda.list_packages c oracle).result = .ok installed_packages)
    (hne : Conda.packages_to_remove installed_packages packages ≠ []) :
    (Conda.remove c oracle packages).trace =
      (Conda.list_packages c oracle).trace ++
        [Conda.build_cmd c "remove"
          (Conda.packages_to_remove installed_packages packages) true] ∧
    (Conda.remove c oracle packages).result =
      (Conda.run_conda c oracle "remove"
        (Conda.packages_to_remove installed_packages packages) true true).result ∧
    ∀ x, x ∈ Conda.packages_to_remove installed_packages packages ↔
      x ∈ installed_packages ∧ ∃ s ∈ packages, Conda.normalize_name s = x := by
  have hie : (Conda.packages_to_remove installed_packages packages).isEmpty = false := by
    cases h : Conda.packages_to_remove installed_packages packages with
    | nil => exact absurd h hne
    | cons a t => rfl
  refine ⟨?_, ?_, fun x => mem_packages_to_remove installed_packages packages x⟩ <;>
    simp [Conda.remove, hlist, hie, Conda.run_conda]

/-- Witness for C8: the spec's example, `remove(["foo","Python"])` against
installed `["python","bar"]` runs one remove invocation with positional
args exactly `["python"]`. -/
theorem remove_nonempty_runs_intersection_witness :
    (Conda.remove testConfig (pkgListOracle ["python", "bar"]) ["foo", "Python"]).trace =
      [["/mypath/conda", "list", "--quiet", "--json", "--name", "myenv"],
        ["/mypath/conda", "remove", "--quiet", "--json", "-y", "--name", "myenv",
          "python"]] ∧
    (Conda.remove testConfig (pkgListOracle ["python", "bar"]) ["foo", "Python"]).result =
      (Conda.run_conda testConfig (pkgListOracle ["python", "bar"]) "remove"
        ["python"] true true).result := by
  have h := remove_nonempty_runs_intersection testConfig
    (pkgListOracle ["python", "bar"]) ["foo", "Python"] ["python", "bar"]
    rfl (by decide)
  exact ⟨h.1, h.2.1⟩

/-- In check mode, every command built with the default arguments merged
carries the dry-run flag. -/
lemma dry_run_mem_build_cmd (c : CondaConfig) (h : c.check_mode = true)
    (sub : String) (args : List String) :
    "--dry-run" ∈ Conda.build_cmd c sub args true := by
  simp [Conda.build_cmd, Conda.default_args, h]

/-- C9 counterexample.  In check mode, `remove` actually generates (and
runs) a listing command vector that does not include `--dry-run`: the first
vector of its trace lacks the flag, so not every command vector generated
by the four mutating operations includes it. -/
theorem check_mode_remove_listing_lacks_dry_run :
    (Conda.remove checkConfig (pkgListOracle ["a"]) ["a"]).trace =
      [["/c", "list", "--quiet", "--json", "--name", "e"],
        ["/c", "remove", "--quiet", "--json", "-y", "--name", "e", "--dry-run",
          "a"]] ∧
    "--dry-run" ∉ (["/c", "list", "--quiet", "--json", "--name", "e"] : List String) :=
  ⟨rfl, by decide⟩

/-- C9 amended.  In check mode, every command vector that merges the default
arguments includes `--dry-run`: every vector generated by install, update
and create, and every vector of remove after its preliminary listing
invocation (which does not merge the defaults and lacks the flag). -/
theorem check_mode_dry_run_in_mutating_cmds (exe env : String)
    (channels : List String) (oracle : List String → CmdOutput)
    (packages : List String) :
    (∀ cmd ∈ (Conda.install ⟨exe, env, channels, true⟩ oracle packages).trace,
      "--dry-run" ∈ cmd) ∧
    (∀ cmd ∈ (Conda.update ⟨exe, env, channels, true⟩ oracle packages).trace,
      "--dry-run" ∈ cmd) ∧
    (∀ cmd ∈ (Conda.create ⟨exe, env, channels, true⟩ oracle packages).trace,
      "--dry-run" ∈ cmd) ∧
    (∀ cmd ∈ (Conda.remove ⟨exe, env, channels, true⟩ oracle packages).trace.drop 1,
      "--dry-run" ∈ cmd) := by
  refine ⟨?_, ?_, ?_, ?_⟩
  · intro cmd hc
    simp [Conda.install, Conda.run_conda] at hc
    subst hc
    exact dry_run_mem_build_cmd _ rfl _ _
  · intro cmd hc
    simp [Conda.update, Conda.run_conda] at hc
    subst hc
    exact dry_run_mem_build_cmd _ rfl _ _
  · intro cmd hc
    simp [Conda.create, Conda.run_conda] at hc
    subst hc
    exact dry_run_mem_build_cmd _ rfl _ _
  · intro cmd hc
    have htr : (Conda.list_packages ⟨exe, env, channels, true⟩ oracle).trace =
        [Conda.build_cmd ⟨exe, env, channels, true⟩ "list"
          (Conda.env_args ⟨exe, env, channels, true⟩) false] := rfl
    rcases hres : (Conda.list_packages ⟨exe, env, channels, true⟩ oracle).result
      with e | installed
    · simp [Conda.remove, hres, htr] at hc
    · rcases hie : (Conda.packages_to_remove installed packages).isEmpty
      · simp [Conda.remove, hres, hie, htr, Conda.run_conda] at hc
        subst hc
        exact dry_run_mem_build_cmd _ rfl _ _
      · simp [Conda.remove, hres, hie, htr] at hc

/-- Witness for the amended C9: concrete install and remove vectors in
check mode carry `--dry-run`. -/
theorem check_mode_dry_run_in_mutating_cmds_witness :
    "--dry-run" ∈ (["/c", "install", "--quiet", "--json", "-y", "--name", "e",
      "--dry-run", "-S", "x"] : List String) ∧
    "--dry-run" ∈ (["/c", "remove", "--quiet", "--json", "-y", "--name", "e",
      "--dry-run", "a"] : List String) :=
  ⟨(check_mode_dry_run_in_mutating_cmds "/c" "e" [] (pkgListOracle ["a"]) ["x"]).1
      _ (by decide),
    (check_mode_dry_run_in_mutating_cmds "/c" "e" [] (pkgListOracle ["a"]) ["a"]).2.2.2
      _ (by decide)⟩
